import Mathlib

/-!
Verification of the agriculture anomaly-detection pipeline.

Shallow embedding of the streaming detector (`agriculture_app/ml_model.py`),
the ingestion pipeline with its magnitude gate
(`agriculture_app/views.py`, `SensorReadingCreateView.perform_create`),
and the rule-based recommendation agent (`agriculture_app/agent_module.py`)
together with the recommendation store (`agriculture_app/models.py`).

Sensor values, scores and confidences are modelled as exact rationals;
timestamps as integers (seconds).  The pre-trained scoring artifact
(scaler + isolation forest) is an opaque oracle: a function from the
engineered feature vector to `Option (ℤ × ℚ)` giving the model prediction
(`1` normal / `-1` anomaly) and the raw decision-function score, with
`none` modelling a raised exception anywhere in the scoring call.
The rolling standard deviation (`numpy` `arr.std()`, only applied to
windows of 2 or more points) is likewise an opaque parameter `std`,
since its exact value is irrelevant to every property below.
-/

namespace Agri

/-- A stream key: `(plot_id, sensor_type)`.  Sensor types are the literal
strings `"MOISTURE"`, `"TEMPERATURE"`, `"HUMIDITY"` used throughout the code. -/
abbrev SeriesKey := ℕ × String

/-- Per-detector rolling contexts: `plot_contexts` in `MLAnomalyDetector`,
a dict `{plot_id: {sensor_type: [values]}}`, modelled as a total function
with `[]` for absent keys (`_get_context` creates missing entries as `[]`). -/
abbrev DetectorState := SeriesKey → List ℚ

/-- The empty detector (`self.plot_contexts = {}` right after `__init__`). -/
def emptyState : DetectorState := fun _ => []

/-- Update one stream's context, leaving every other key untouched. -/
def setCtx (st : DetectorState) (key : SeriesKey) (ctx : List ℚ) : DetectorState :=
  fun k => if k = key then ctx else st k

/-- The 5-dimensional feature vector `[value, roll_mean, roll_std, diff, derivative]`
returned by `MLAnomalyDetector._engineer_features`. -/
structure FeatureVec where
  value : ℚ
  rollMean : ℚ
  rollStd : ℚ
  diff : ℚ
  derivative : ℚ
  deriving DecidableEq, Repr

/-- Mean of a list of rationals (`arr.mean()`; division by zero yields 0 in ℚ,
but every use below is on a nonempty list). -/
def listMean (l : List ℚ) : ℚ := l.sum / l.length

/-- Consecutive differences of a list (`np.diff(arr)`). -/
def consecDiffs : List ℚ → List ℚ
  | a :: b :: t => (b - a) :: consecDiffs (b :: t)
  | _ => []

/-- `MLAnomalyDetector._engineer_features(value, context)` (ml_model.py:38-81).
Appends `value` to the context, trims the front once if the window is
exceeded, re-appends if empty (dead guard in practice), and computes the
feature vector from the resulting context.  `std` stands for `arr.std()`.
Returns the mutated context together with the feature vector. -/
def engineerFeatures (std : List ℚ → ℚ) (window : ℕ) (value : ℚ) (context : List ℚ) :
    List ℚ × FeatureVec :=
  -- context.append(value)
  let c1 := context ++ [value]
  -- if len(context) > self.window: context.pop(0)
  let c2 := if window < c1.length then c1.tail else c1
  -- if len(context) == 0: context.append(value)
  let c3 := if c2.isEmpty then c2 ++ [value] else c2
  let rollMean := listMean c3
  let rollStd := if 1 < c3.length then std c3 else 0
  let diff := if 1 < c3.length then value - c3.getD (c3.length - 2) 0 else 0
  let derivative :=
    if 1 < c3.length then
      let diffs := consecDiffs c3
      if diffs.length > 0 then listMean diffs else 0
    else 0
  (c3, ⟨value, rollMean, rollStd, diff, derivative⟩)

/-- The scoring artifact: scaler transform followed by
`model.predict` / `model.decision_function`, collapsed into one opaque
call on the engineered feature vector.  `some (p, s)`: prediction `p`
(`1` normal, `-1` anomaly) and raw score `s`.  `none`: the scoring call
raised an exception. -/
abbrev Oracle := FeatureVec → Option (ℤ × ℚ)

/-- `MLAnomalyDetector.predict(plot_id, sensor_type, value)` (ml_model.py:83-107).
The context is mutated by `_engineer_features` before the oracle is invoked,
so the returned state reflects the append/trim even when the oracle throws
(`none` result component). -/
def predict (std : List ℚ → ℚ) (oracle : Oracle) (window : ℕ)
    (st : DetectorState) (key : SeriesKey) (value : ℚ) :
    DetectorState × Option (Bool × ℚ) :=
  let context := st key
  let (ctx', x) := engineerFeatures std window value context
  let st' := setCtx st key ctx'
  match oracle x with
  | none => (st', none)
  | some (prediction, score) =>
      -- anomaly_score = abs(score) if prediction == -1 else 0.0
      let anomalyScore : ℚ := if prediction = -1 then |score| else 0
      let isAnomaly := prediction = -1
      (st', some (isAnomaly, anomalyScore))

/-- Normal operating ranges in `perform_create` (views.py:135-139);
`.get(sensor_type, (0, 100))`. -/
def normalRanges (sensor : String) : ℚ × ℚ :=
  if sensor = "TEMPERATURE" then (18, 28)
  else if sensor = "HUMIDITY" then (50, 75)
  else if sensor = "MOISTURE" then (40, 70)
  else (0, 100)

/-- Magnitude thresholds in `perform_create` (views.py:142-146);
`.get(sensor_type, 5.0)`. -/
def magnitudeThreshold (sensor : String) : ℚ :=
  if sensor = "TEMPERATURE" then 3
  else if sensor = "HUMIDITY" then 8
  else if sensor = "MOISTURE" then 8
  else 5

/-- `anomaly_map` lookup in `perform_create` (views.py:174-191);
`.get(sensor_type, AnomalyType.HIGH_TEMPERATURE)`. -/
def anomalyMapGet (sensor : String) (value maxVal : ℚ) : String :=
  if sensor = "TEMPERATURE" then
    if maxVal < value then "HIGH_TEMPERATURE" else "LOW_TEMPERATURE"
  else if sensor = "HUMIDITY" then
    if maxVal < value then "HIGH_HUMIDITY" else "LOW_HUMIDITY"
  else if sensor = "MOISTURE" then
    if maxVal < value then "HIGH_MOISTURE" else "LOW_MOISTURE"
  else "HIGH_TEMPERATURE"

/-- The fields of an `AnomalyEvent` created by `perform_create`
(severity and clamped confidence are all the claims need). -/
structure EventData where
  anomalyType : String
  severity : String
  modelConfidence : ℚ
  deriving DecidableEq, Repr

/-- Result of one `SensorReadingCreateView.perform_create` call:
the detector state after the call, the `(is_anomaly, confidence_score)`
pair the view ended up with, the created event (if any), and whether
`generate_recommendation` was invoked. -/
structure CreateResult where
  state : DetectorState
  flagged : Bool
  conf : ℚ
  event : Option EventData
  recTriggered : Bool

/-- `SensorReadingCreateView.perform_create` (views.py:101-213), from the
`detector.predict` call on: the try/except around `predict`, the
`is_anomaly` early return, the magnitude filter, severity banding,
confidence clamping and event creation.  (The `detector is None` early
return is upstream of everything modelled here.) -/
def performCreate (std : List ℚ → ℚ) (oracle : Oracle) (window : ℕ)
    (st : DetectorState) (plot : ℕ) (sensor : String) (value : ℚ) : CreateResult :=
  let r := predict std oracle window st (plot, sensor) value
  let st' := r.1
  -- except Exception: is_anomaly = False; confidence_score = 0.0
  let p := match r.2 with
    | some q => q
    | none => (false, 0)
  let isAnomaly := p.1
  let conf := p.2
  if !isAnomaly then ⟨st', isAnomaly, conf, none, false⟩
  else
    let mm := normalRanges sensor
    let minVal := mm.1
    let maxVal := mm.2
    let threshold := magnitudeThreshold sensor
    let isSignificantlyLow := value < minVal - threshold
    let isSignificantlyHigh := maxVal + threshold < value
    if !(isSignificantlyLow || isSignificantlyHigh) then
      -- anomaly dismissed: insufficient magnitude
      ⟨st', isAnomaly, conf, none, false⟩
    else
      let anomalyType := anomalyMapGet sensor value maxVal
      let severity : String :=
        if conf < 13/20 then "LOW" else if conf < 4/5 then "MEDIUM" else "HIGH"
      let ev : EventData := ⟨anomalyType, severity, min conf 1⟩
      -- generate_recommendation(anomaly_event)
      ⟨st', isAnomaly, conf, some ev, true⟩

/-- Modelled from the spec: the warmup floor `max(15, 1.5 × window_size)`
(spec §4.2 transition 1).  No warmup logic exists anywhere in the source:
`MLAnomalyDetector.predict` scores every reading, including the first. -/
def warmupFloorSpec (window : ℕ) : ℚ := max 15 ((3 / 2) * window)

/-! ## Rule engine (`agent_module.py`) -/

/-- One `SensorReading` row, as read by the rule engine
(timestamps are integer seconds). -/
structure Reading where
  plot : ℕ
  sensor : String
  timestamp : ℤ
  value : ℚ
  deriving DecidableEq, Repr, Inhabited

/-- One `AnomalyEvent` row as the rule engine sees it. -/
structure EventRow where
  id : ℕ
  plot : ℕ
  anomalyType : String
  severity : String
  modelConfidence : ℚ
  timestamp : ℤ
  deriving DecidableEq, Repr

/-- `SHORT_TIME_WINDOW = timedelta(hours=1)`, in seconds. -/
def shortTimeWindow : ℤ := 3600

/-- `MOISTURE_DROP_PERCENTAGE = 10`. -/
def moistureDropPercentage : ℚ := 10

/-- `_derive_sensor_type_from_anomaly` (agent_module.py:14-22). -/
def deriveSensorTypeFromAnomaly (a : String) : Option String :=
  if a = "HIGH_MOISTURE" ∨ a = "LOW_MOISTURE" then some ("MOISTURE")
  else if a = "HIGH_TEMPERATURE" ∨ a = "LOW_TEMPERATURE" then some ("TEMPERATURE")
  else if a = "HIGH_HUMIDITY" ∨ a = "LOW_HUMIDITY" then some ("HUMIDITY")
  else none

/-- `AnomalyEvent.get_anomaly_type_display()`: Django returns the
human-readable label of the choice, or the raw value if unknown
(`enumerations.AnomalyType`). -/
def anomalyTypeDisplay (a : String) : String :=
  if a = "HIGH_MOISTURE" then "High Moisture"
  else if a = "LOW_MOISTURE" then "Low Moisture"
  else if a = "HIGH_TEMPERATURE" then "High Temperature"
  else if a = "LOW_TEMPERATURE" then "Low Temperature"
  else if a = "HIGH_HUMIDITY" then "High Humidity"
  else if a = "LOW_HUMIDITY" then "Low Humidity"
  else a

/-- The rule context dict: only the keys the five rules actually put there. -/
inductive RuleContext where
  | empty : RuleContext
  | moistureDelta (d : ℚ) : RuleContext
  | tempDelta (d : ℚ) : RuleContext
  | factors (s : String) : RuleContext
  deriving DecidableEq, Repr

/-- The decision dict returned by `apply_rules`. -/
structure Decision where
  action : String
  confidence : String
  template : String
  context : RuleContext
  deriving DecidableEq, Repr

/-- The moisture-readings query of rule 2 (agent_module.py:93-99):
`SensorReading.objects.filter(plot=event.plot, sensor_type='MOISTURE',
timestamp__gte=one_hour_ago, timestamp__lte=event.timestamp).order_by('timestamp')`. -/
def recentMoistureReadings (readings : List Reading) (event : EventRow) : List Reading :=
  List.insertionSort (fun a b => a.timestamp ≤ b.timestamp)
    (readings.filter (fun r =>
      decide (r.plot = event.plot ∧ r.sensor = "MOISTURE" ∧
        event.timestamp - shortTimeWindow ≤ r.timestamp ∧ r.timestamp ≤ event.timestamp)))

/-- Rule 2 of `apply_rules` (agent_module.py:92-112): the significant
moisture-drop check.  `none` means the rule did not fire (fall through). -/
def moistureRule (readings : List Reading) (event : EventRow) : Option Decision :=
  let recent := recentMoistureReadings readings event
  if 1 < recent.length then
    let firstReading := recent.headD default
    let lastReading := recent.getLastD default
    if 0 < firstReading.value then
      let percentageDrop := (firstReading.value - lastReading.value) / firstReading.value * 100
      if moistureDropPercentage < percentageDrop then
        some ⟨"Irrigation check — possible leak or pump failure.", "HIGH",
          "IRRIGATION_CHECK", .moistureDelta percentageDrop⟩
      else none
    else none
  else none

/-- The co-occurring-anomalies query of rule 4 (agent_module.py:126-130):
`AnomalyEvent.objects.filter(plot=event.plot,
timestamp__gte=event.timestamp - SHORT_TIME_WINDOW, timestamp__lt=event.timestamp)`. -/
def recentAnomalies (anomalies : List EventRow) (event : EventRow) : List EventRow :=
  anomalies.filter (fun a =>
    decide (a.plot = event.plot ∧
      event.timestamp - shortTimeWindow ≤ a.timestamp ∧ a.timestamp < event.timestamp))

/-- The factor list of rule 4 (agent_module.py:133-135,140):
`", ".join(sorted(list(set(co-occurring types + [event type]))))`. -/
def factorsString (event : EventRow) (recentAnoms : List EventRow) : String :=
  let factors := recentAnoms.map (·.anomalyType) ++ [event.anomalyType]
  let uniqueFactors := List.insertionSort (· ≤ ·) factors.dedup
  (", ").intercalate uniqueFactors

/-- `apply_rules(event)` (agent_module.py:75-149): ordered first-match
evaluation of rules 1-5.  The readings and anomalies tables are passed
explicitly in place of the ORM. -/
def applyRules (readings : List Reading) (anomalies : List EventRow)
    (event : EventRow) : Decision :=
  let sensorType := deriveSensorTypeFromAnomaly event.anomalyType
  -- Rule 1: low model confidence overrides everything.
  if event.modelConfidence < 3/5 then
    ⟨"Monitor closely — verify with manual inspection.", "LOW",
      "LOW_CONFIDENCE_MONITOR", .empty⟩
  else
    -- Rule 2: significant moisture drop.
    match (if sensorType = some ("MOISTURE") then moistureRule readings event else none) with
    | some d => d
    | none =>
      -- Rule 3: heat stress.
      if sensorType = some ("TEMPERATURE") ∧ event.severity = "HIGH" then
        ⟨"Heat stress mitigation — increase shade or irrigation frequency.", "MEDIUM",
          "HEAT_STRESS", .tempDelta 5⟩
      else
        -- Rule 4: multiple concurrent anomalies.
        let recentAnoms := recentAnomalies anomalies event
        if recentAnoms ≠ [] then
          ⟨"Comprehensive plot inspection — multiple stress factors detected.", "HIGH",
            "MULTI_ANOMALY", .factors (factorsString event recentAnoms)⟩
        else
          -- Rule 5: default fallback.
          ⟨"Investigate \x27" ++ anomalyTypeDisplay event.anomalyType ++ "\x27 on plot "
              ++ toString event.plot ++ ".", "MEDIUM", "DEFAULT", .empty⟩

/-! ## Recommendation store (`models.py`, `agent_module.generate_recommendation`) -/

/-- One `AgentRecommendation` row.  `anomaly_event` is a plain foreign key
(related_name `"recommendations"`), so the table itself puts no uniqueness
constraint on `eventId`. -/
structure RecRow where
  eventId : ℕ
  timestamp : ℤ
  action : String
  explanation : String
  confidence : String
  deriving DecidableEq, Repr

/-- The rows of the store attached to one anomaly event. -/
def rowsFor (store : List RecRow) (evId : ℕ) : List RecRow :=
  store.filter (fun r => r.eventId = evId)

/-- `generate_recommendation(anomaly_event)` (agent_module.py:42-73),
acting on the recommendation table.  `explain` stands for
`generate_explanation` (a pure function of the event and the decision).

`existing = getattr(anomaly_event, "recommendation", None)` is always
`None`: the reverse accessor declared by the model is `recommendations`
(plural), so the attribute does not exist and the early-return branch is
dead.  `get_or_create(anomaly_event=...)` then looks the event up: no row
→ create and fall off the end (return `None`); exactly one row → return
it unchanged; several rows → `MultipleObjectsReturned` (modelled `none`).
Returns the new table and the function's return value. -/
def generateRecommendation (explain : EventRow → Decision → String)
    (readings : List Reading) (anomalies : List EventRow)
    (store : List RecRow) (ev : EventRow) :
    Option (List RecRow × Option RecRow) :=
  let decision := applyRules readings anomalies ev
  let explanation := explain ev decision
  match rowsFor store ev.id with
  | [] =>
      let newRec : RecRow :=
        ⟨ev.id, ev.timestamp, decision.action, explanation, decision.confidence⟩
      some (store ++ [newRec], none)
  | [r] => some (store, some r)
  | _ => none

/-- `n` successive invocations of `generate_recommendation` for the same
event (direct service call, post-save signal path, or any mix: both paths
call the very same function).  A raising call leaves the table as is. -/
def iterateGen (explain : EventRow → Decision → String)
    (readings : List Reading) (anomalies : List EventRow) (ev : EventRow) :
    ℕ → List RecRow → List RecRow
  | 0, s => s
  | n + 1, s =>
      match generateRecommendation explain readings anomalies s ev with
      | some (s', _) => iterateGen explain readings anomalies ev n s'
      | none => iterateGen explain readings anomalies ev n s

/-- The rolling context a stream key holds after the listed values have been
observed in order (each observation runs `_engineer_features` once,
starting from the lazily-created empty context). -/
def runCtx (std : List ℚ → ℚ) (window : ℕ) (vs : List ℚ) : List ℚ :=
  vs.foldl (fun c v => (engineerFeatures std window v c).1) []

/-! ## Helper lemmas -/

/-- The context component of `_engineer_features`: append, then trim the
front once when the window is exceeded (for a positive window the
empty-context guard is dead). -/
theorem engineerFeatures_fst (std : List ℚ → ℚ) {window : ℕ} (hw : 1 ≤ window)
    (value : ℚ) (context : List ℚ) :
    (engineerFeatures std window value context).1 =
      if window < context.length + 1 then (context ++ [value]).tail
      else context ++ [value] := by
  by_cases h : window < context.length + 1
  · cases context with
    | nil => simp only [List.length_nil] at h; omega
    | cons a t =>
      simp [engineerFeatures, h]
      split <;> simp
  · simp [engineerFeatures, h]

/-- A sorted deduplication depends only on the set of elements:
`sorted(list(set(l)))` is invariant under permutation and multiplicity. -/
theorem insertionSort_dedup_eq_of_toFinset_eq {l₁ l₂ : List String}
    (h : l₁.toFinset = l₂.toFinset) :
    List.insertionSort (· ≤ ·) l₁.dedup = List.insertionSort (· ≤ ·) l₂.dedup := by
  have hperm : List.Perm l₁.dedup l₂.dedup := List.toFinset_eq_iff_perm_dedup.mp h
  exact List.eq_of_perm_of_sorted
    ((List.perm_insertionSort _ _).trans (hperm.trans (List.perm_insertionSort _ _).symm))
    (List.sorted_insertionSort _ _) (List.sorted_insertionSort _ _)

/-! ## Claims about the rule engine -/

/-- C4: for every `AnomalyEvent` whose `model_confidence` is strictly below
0.6, `apply_rules` returns the low-confidence monitoring decision
(confidence LOW, template `LOW_CONFIDENCE_MONITOR`), irrespective of the
event's sensor type, severity, and any reading/anomaly history — the rule
fires before every other rule. -/
theorem C4_low_confidence_override (readings : List Reading)
    (anomalies : List EventRow) (event : EventRow)
    (h : event.modelConfidence < 3/5) :
    applyRules readings anomalies event =
      ⟨"Monitor closely — verify with manual inspection.", "LOW",
        "LOW_CONFIDENCE_MONITOR", .empty⟩ := by
  simp [applyRules, h]

/-- Witness for C4: an anomaly with model confidence 0.4, of temperature
type with HIGH severity, selects `LOW_CONFIDENCE_MONITOR` with confidence
LOW. -/
theorem C4_low_confidence_override_witness :
    applyRules [] [] ⟨1, 3, "HIGH_TEMPERATURE", "HIGH", 2/5, 0⟩ =
      ⟨"Monitor closely — verify with manual inspection.", "LOW",
        "LOW_CONFIDENCE_MONITOR", .empty⟩ :=
  C4_low_confidence_override [] [] _ (by norm_num)

/-- C5: for a moisture-type event with model confidence ≥ 0.6, when the
plot has at least 2 moisture readings in the hour ending at the event
timestamp (ordered by time), the earliest one has positive value, and
`(first − last) / first × 100 > 10`, `apply_rules` returns the
irrigation-check decision (confidence HIGH, template `IRRIGATION_CHECK`)
carrying the computed drop percentage. -/
theorem C5_irrigation_check (readings : List Reading) (anomalies : List EventRow)
    (event : EventRow)
    (hm : deriveSensorTypeFromAnomaly event.anomalyType = some ("MOISTURE"))
    (hc : ¬ event.modelConfidence < 3/5)
    (hlen : 1 < (recentMoistureReadings readings event).length)
    (hpos : 0 < ((recentMoistureReadings readings event).headD default).value)
    (hdrop : moistureDropPercentage <
      (((recentMoistureReadings readings event).headD default).value -
        ((recentMoistureReadings readings event).getLastD default).value) /
        ((recentMoistureReadings readings event).headD default).value * 100) :
    applyRules readings anomalies event =
      ⟨"Irrigation check — possible leak or pump failure.", "HIGH", "IRRIGATION_CHECK",
        .moistureDelta ((((recentMoistureReadings readings event).headD default).value -
          ((recentMoistureReadings readings event).getLastD default).value) /
          ((recentMoistureReadings readings event).headD default).value * 100)⟩ := by
  simp only [List.headD_eq_head?, List.getLastD_eq_getLast?] at hpos hdrop
  simp [applyRules, hm, hc, moistureRule, hlen, hpos, hdrop]

/-- Witness for C5: moisture readings 60.0 (an hour before) then 50.0 (at
the event) on the same plot with model confidence 0.8 select
`IRRIGATION_CHECK` with confidence HIGH and a 16.7% (= 50/3) drop. -/
theorem C5_irrigation_check_witness :
    applyRules [⟨3, "MOISTURE", 6400, 60⟩, ⟨3, "MOISTURE", 10000, 50⟩] []
        ⟨1, 3, "LOW_MOISTURE", "MEDIUM", 4/5, 10000⟩ =
      ⟨"Irrigation check — possible leak or pump failure.", "HIGH", "IRRIGATION_CHECK",
        .moistureDelta (50/3)⟩ := by
  have h := C5_irrigation_check [⟨3, "MOISTURE", 6400, 60⟩, ⟨3, "MOISTURE", 10000, 50⟩] []
    ⟨1, 3, "LOW_MOISTURE", "MEDIUM", 4/5, 10000⟩
    (by norm_num [deriveSensorTypeFromAnomaly])
    (by norm_num)
    (by norm_num [recentMoistureReadings, shortTimeWindow, List.insertionSort,
      List.orderedInsert, List.filter])
    (by norm_num [recentMoistureReadings, shortTimeWindow, List.insertionSort,
      List.orderedInsert, List.filter])
    (by norm_num [recentMoistureReadings, shortTimeWindow, moistureDropPercentage,
      List.insertionSort, List.orderedInsert, List.filter])
  rw [h]
  norm_num [recentMoistureReadings, shortTimeWindow, List.insertionSort,
    List.orderedInsert, List.filter]

/-- C6: whenever the multi-anomaly rule fires (model confidence not low,
the moisture rule did not return, the heat-stress guard does not hold, and
some other anomaly exists on the plot in the trailing hour strictly before
the event), the factors string is the comma-joined, duplicate-free,
lexically sorted union of the event's anomaly type and the co-occurring
anomaly types; any other co-occurring list with the same set of types
(any permutation or multiplicity) yields the same decision. -/
theorem C6_multi_anomaly_factors (readings : List Reading)
    (anomalies anomalies' : List EventRow) (event : EventRow)
    (hc : ¬ event.modelConfidence < 3/5)
    (hmo : (if deriveSensorTypeFromAnomaly event.anomalyType = some ("MOISTURE") then
      moistureRule readings event else none) = none)
    (hts : ¬ (deriveSensorTypeFromAnomaly event.anomalyType = some ("TEMPERATURE") ∧
      event.severity = "HIGH"))
    (hne : recentAnomalies anomalies event ≠ [])
    (hne' : recentAnomalies anomalies' event ≠ [])
    (hset : ((recentAnomalies anomalies' event).map (·.anomalyType)).toFinset =
      ((recentAnomalies anomalies event).map (·.anomalyType)).toFinset) :
    applyRules readings anomalies event =
      ⟨"Comprehensive plot inspection — multiple stress factors detected.", "HIGH",
        "MULTI_ANOMALY",
        .factors ((", ").intercalate (List.insertionSort (· ≤ ·)
          (((recentAnomalies anomalies event).map (·.anomalyType) ++
            [event.anomalyType]).dedup)))⟩ ∧
    applyRules readings anomalies' event = applyRules readings anomalies event := by
  have hrun : ∀ (ans : List EventRow), recentAnomalies ans event ≠ [] →
      applyRules readings ans event =
        ⟨"Comprehensive plot inspection — multiple stress factors detected.", "HIGH",
          "MULTI_ANOMALY", .factors (factorsString event (recentAnomalies ans event))⟩ := by
    intro ans hansne
    simp only [applyRules, if_neg hc, hmo, if_neg hts, if_pos hansne]
  have hfac : factorsString event (recentAnomalies anomalies' event) =
      factorsString event (recentAnomalies anomalies event) := by
    simp only [factorsString]
    congr 1
    apply insertionSort_dedup_eq_of_toFinset_eq
    simp [List.toFinset_append, hset]
  refine ⟨hrun anomalies hne, ?_⟩
  rw [hrun anomalies hne, hrun anomalies' hne', hfac]

/-- Witness for C6: co-occurring anomalies `[LOW_MOISTURE, HIGH_HUMIDITY,
LOW_MOISTURE]` and, in another order and multiplicity, `[HIGH_HUMIDITY,
LOW_MOISTURE]`, both give the factor string
"HIGH_HUMIDITY, HIGH_TEMPERATURE, LOW_MOISTURE" for a HIGH_TEMPERATURE
event of non-HIGH severity. -/
theorem C6_multi_anomaly_factors_witness :
    applyRules []
        [⟨5, 3, "LOW_MOISTURE", "LOW", 1, 9000⟩, ⟨6, 3, "HIGH_HUMIDITY", "LOW", 1, 8000⟩,
          ⟨7, 3, "LOW_MOISTURE", "LOW", 1, 7000⟩]
        ⟨9, 3, "HIGH_TEMPERATURE", "LOW", 9/10, 10000⟩ =
      ⟨"Comprehensive plot inspection — multiple stress factors detected.", "HIGH",
        "MULTI_ANOMALY", .factors ("HIGH_HUMIDITY, HIGH_TEMPERATURE, LOW_MOISTURE")⟩ ∧
    applyRules []
        [⟨6, 3, "HIGH_HUMIDITY", "LOW", 1, 8000⟩, ⟨7, 3, "LOW_MOISTURE", "LOW", 1, 7000⟩]
        ⟨9, 3, "HIGH_TEMPERATURE", "LOW", 9/10, 10000⟩ =
      applyRules []
        [⟨5, 3, "LOW_MOISTURE", "LOW", 1, 9000⟩, ⟨6, 3, "HIGH_HUMIDITY", "LOW", 1, 8000⟩,
          ⟨7, 3, "LOW_MOISTURE", "LOW", 1, 7000⟩]
        ⟨9, 3, "HIGH_TEMPERATURE", "LOW", 9/10, 10000⟩ := by
  have h := C6_multi_anomaly_factors []
    [⟨5, 3, "LOW_MOISTURE", "LOW", 1, 9000⟩, ⟨6, 3, "HIGH_HUMIDITY", "LOW", 1, 8000⟩,
      ⟨7, 3, "LOW_MOISTURE", "LOW", 1, 7000⟩]
    [⟨6, 3, "HIGH_HUMIDITY", "LOW", 1, 8000⟩, ⟨7, 3, "LOW_MOISTURE", "LOW", 1, 7000⟩]
    ⟨9, 3, "HIGH_TEMPERATURE", "LOW", 9/10, 10000⟩
    (by norm_num)
    (by simp [deriveSensorTypeFromAnomaly])
    (by simp [deriveSensorTypeFromAnomaly])
    (by simp [recentAnomalies, shortTimeWindow, List.filter])
    (by simp [recentAnomalies, shortTimeWindow, List.filter])
    (by simp [recentAnomalies, shortTimeWindow, List.filter])
  obtain ⟨h1, h2⟩ := h
  refine ⟨?_, h2⟩
  rw [h1]
  simp +decide [recentAnomalies, shortTimeWindow, List.filter, List.insertionSort,
    List.orderedInsert, List.dedup, String.intercalate, String.intercalate.go]

/-! ## Claims about the detector and the ingestion pipeline -/

/-- C1: `MLAnomalyDetector.predict` has no warmup gate.  On a fresh stream,
the very first reading (context length 1, far below the specified warmup
floor `max(15, 1.5 × window) = 15` for the trained window of 10) is already
reported `is_anomaly = true` whenever the scoring oracle predicts −1.
This evaluates the code at the failing input of the claim. -/
theorem C1_predict_flags_first_reading :
    ((predict (fun _ => 0) (fun _ => some (-1, 1/2)) 10 emptyState
        (7, "MOISTURE") 55).1 (7, "MOISTURE")).length = 1 ∧
    ((1 : ℚ) < warmupFloorSpec 10) ∧
    (predict (fun _ => 0) (fun _ => some (-1, 1/2)) 10 emptyState
        (7, "MOISTURE") 55).2 = some (true, 1/2) := by
  refine ⟨?_, ?_, ?_⟩
  · norm_num [predict, engineerFeatures, emptyState, setCtx]
  · norm_num [warmupFloorSpec]
  · norm_num [predict, engineerFeatures, emptyState, listMean, consecDiffs]

/-- Counterexample to C2 as stated: with a throwing oracle on a fresh
stream, `perform_create` does end up with `(false, 0.0)` and creates no
event, but the per-key rolling context is `[5]`, not the `[]` it held
before the call — `_engineer_features` appends the value before the
scoring call raises, and nothing rolls it back. -/
theorem C2_state_not_untouched_cex :
    (performCreate (fun _ => 0) (fun _ => none) 10 emptyState 1 "TEMPERATURE" 5).flagged
        = false ∧
    (performCreate (fun _ => 0) (fun _ => none) 10 emptyState 1 "TEMPERATURE" 5).conf = 0 ∧
    (performCreate (fun _ => 0) (fun _ => none) 10 emptyState 1 "TEMPERATURE" 5).event
        = none ∧
    (performCreate (fun _ => 0) (fun _ => none) 10 emptyState 1 "TEMPERATURE" 5).state
        (1, "TEMPERATURE") = [5] ∧
    (performCreate (fun _ => 0) (fun _ => none) 10 emptyState 1 "TEMPERATURE" 5).state
        (1, "TEMPERATURE") ≠ emptyState (1, "TEMPERATURE") := by
  refine ⟨?_, ?_, ?_, ?_, ?_⟩ <;>
    norm_num [performCreate, predict, engineerFeatures, emptyState, setCtx]

/-- C2 (amended): if the scoring oracle raises on the engineered feature
vector, the `perform_create` call does not propagate the exception: it
ends with `(false, 0.0)`, creates no event and triggers no recommendation;
the per-key context, however, is the post-append(-trim) context of the
failing call — the observed value is retained — and every other key is
untouched. -/
theorem C2_oracle_failure_fail_safe (std : List ℚ → ℚ) (oracle : Oracle)
    (window plot : ℕ) (sensor : String) (st : DetectorState) (value : ℚ)
    (hthrow : oracle (engineerFeatures std window value (st (plot, sensor))).2 = none) :
    performCreate std oracle window st plot sensor value =
      ⟨setCtx st (plot, sensor) (engineerFeatures std window value (st (plot, sensor))).1,
        false, 0, none, false⟩ := by
  simp [performCreate, predict, hthrow]

/-- Witness for C2 (amended): a throwing oracle on a detector that already
holds `[60]` for the key; the call is fail-safe and the key's context
becomes `[60, 42]`. -/
theorem C2_oracle_failure_fail_safe_witness :
    performCreate (fun _ => 0) (fun _ => none) 10
        (setCtx emptyState (2, "HUMIDITY") [60]) 2 "HUMIDITY" 42 =
      ⟨setCtx (setCtx emptyState (2, "HUMIDITY") [60]) (2, "HUMIDITY") [60, 42],
        false, 0, none, false⟩ := by
  have h := C2_oracle_failure_fail_safe (fun _ => 0) (fun _ => none) 10 2 "HUMIDITY"
    (setCtx emptyState (2, "HUMIDITY") [60]) 42 rfl
  rw [h]
  norm_num [engineerFeatures, setCtx]

/-- C7: when the model flags a reading (`predict` returns `is_anomaly =
true`) but the raw value does not lie outside the sensor's normal band by
at least the sensor's margin, the detection is discarded: no event is
created, no recommendation is generated, and the detector state is exactly
what the `predict` call left (no rollback). -/
theorem C7_magnitude_gate_discard (std : List ℚ → ℚ) (oracle : Oracle)
    (window plot : ℕ) (sensor : String) (st : DetectorState) (value c : ℚ)
    (hpred : (predict std oracle window st (plot, sensor) value).2 = some (true, c))
    (hmag : ¬ (value < (normalRanges sensor).1 - magnitudeThreshold sensor ∨
      (normalRanges sensor).2 + magnitudeThreshold sensor < value)) :
    performCreate std oracle window st plot sensor value =
      ⟨(predict std oracle window st (plot, sensor) value).1, true, c, none, false⟩ := by
  push_neg at hmag
  obtain ⟨hlo, hhi⟩ := hmag
  simp [performCreate, hpred, not_lt.mpr hlo, not_lt.mpr hhi]

/-- Witness for C7: temperature 25 (inside the 18-28 normal band) flagged
by the model with score 0.5 is dismissed; the context keeps the appended
value. -/
theorem C7_magnitude_gate_discard_witness :
    performCreate (fun _ => 0) (fun _ => some (-1, 1/2)) 10 emptyState 4 "TEMPERATURE" 25 =
      ⟨(predict (fun _ => 0) (fun _ => some (-1, 1/2)) 10 emptyState
          (4, "TEMPERATURE") 25).1, true, 1/2, none, false⟩ := by
  have h := C7_magnitude_gate_discard (fun _ => 0) (fun _ => some (-1, 1/2)) 10 4
    "TEMPERATURE" emptyState 25 (1/2)
    (by norm_num [predict, engineerFeatures, emptyState, listMean, consecDiffs])
    (by norm_num [normalRanges, magnitudeThreshold])
  exact h

/-- Flagged readings carry the score `|raw|`, hence a nonnegative score:
in `predict`, `anomaly_score = abs(score) if prediction == -1 else 0.0`. -/
theorem predict_flag_score_nonneg (std : List ℚ → ℚ) (oracle : Oracle)
    (window : ℕ) (st : DetectorState) (key : SeriesKey) (value c : ℚ)
    (h : (predict std oracle window st key value).2 = some (true, c)) : 0 ≤ c := by
  rcases he : engineerFeatures std window value (st key) with ⟨ctx, x⟩
  rcases ho : oracle x with _ | ⟨p, s⟩
  · simp [predict, he, ho] at h
  · by_cases hm : p = -1
    · subst hm
      simp [predict, he, ho] at h
      rw [← h]
      exact abs_nonneg s
    · simp [predict, he, ho, hm] at h

/-- C8: every event created by `perform_create` is built from a `predict`
call that flagged the reading with some score `c ≥ 0`; its severity is LOW
for `c < 0.65`, MEDIUM for `0.65 ≤ c < 0.80`, HIGH otherwise, and its
stored `model_confidence = min(c, 1)` lies in `[0, 1]`. -/
theorem C8_severity_bands_and_clamp (std : List ℚ → ℚ) (oracle : Oracle)
    (window plot : ℕ) (sensor : String) (st : DetectorState) (value : ℚ)
    (e : EventData)
    (hev : (performCreate std oracle window st plot sensor value).event = some e) :
    ∃ c : ℚ, (predict std oracle window st (plot, sensor) value).2 = some (true, c) ∧
      0 ≤ c ∧
      e.severity = (if c < 13/20 then "LOW" else if c < 4/5 then "MEDIUM" else "HIGH") ∧
      e.modelConfidence = min c 1 ∧
      0 ≤ e.modelConfidence ∧ e.modelConfidence ≤ 1 := by
  rcases hp : (predict std oracle window st (plot, sensor) value).2 with _ | ⟨b, c⟩
  · simp [performCreate, hp] at hev
  · by_cases hb : b
    · subst hb
      have hc0 : 0 ≤ c := predict_flag_score_nonneg std oracle window st _ value c hp
      by_cases hlo : value < (normalRanges sensor).1 - magnitudeThreshold sensor
      · simp [performCreate, hp, hlo] at hev
        exact ⟨c, rfl, hc0, by rw [← hev], by rw [← hev],
          by rw [← hev]; exact le_min hc0 zero_le_one,
          by rw [← hev]; exact min_le_right c 1⟩
      · by_cases hhi : (normalRanges sensor).2 + magnitudeThreshold sensor < value
        · simp [performCreate, hp, hlo, hhi] at hev
          exact ⟨c, rfl, hc0, by rw [← hev], by rw [← hev],
            by rw [← hev]; exact le_min hc0 zero_le_one,
            by rw [← hev]; exact min_le_right c 1⟩
        · simp [performCreate, hp, hlo, hhi] at hev
    · simp [performCreate, hp, hb] at hev

/-- Witness for C8: temperature 35 (significantly above the band) flagged
with score 0.9 yields an event with severity HIGH and confidence 0.9. -/
theorem C8_severity_bands_and_clamp_witness :
    ∃ c : ℚ, (predict (fun _ => 0) (fun _ => some (-1, 9/10)) 10 emptyState
        (1, "TEMPERATURE") 35).2 = some (true, c) ∧
      0 ≤ c ∧
      (⟨"HIGH_TEMPERATURE", "HIGH", 9/10⟩ : EventData).severity =
        (if c < 13/20 then "LOW" else if c < 4/5 then "MEDIUM" else "HIGH") ∧
      (⟨"HIGH_TEMPERATURE", "HIGH", 9/10⟩ : EventData).modelConfidence = min c 1 ∧
      0 ≤ (⟨"HIGH_TEMPERATURE", "HIGH", 9/10⟩ : EventData).modelConfidence ∧
      (⟨"HIGH_TEMPERATURE", "HIGH", 9/10⟩ : EventData).modelConfidence ≤ 1 :=
  C8_severity_bands_and_clamp (fun _ => 0) (fun _ => some (-1, 9/10)) 10 1
    "TEMPERATURE" emptyState 35 ⟨"HIGH_TEMPERATURE", "HIGH", 9/10⟩
    (by norm_num [performCreate, predict, engineerFeatures, emptyState, listMean,
      consecDiffs, normalRanges, magnitudeThreshold, anomalyMapGet, abs_of_nonneg])

/-! ## Claims about the recommendation engine's idempotence -/

/-- The row `get_or_create` inserts for an event (its defaults dict). -/
def newRecFor (explain : EventRow → Decision → String)
    (readings : List Reading) (anomalies : List EventRow) (ev : EventRow) : RecRow :=
  ⟨ev.id, ev.timestamp, (applyRules readings anomalies ev).action,
    explain ev (applyRules readings anomalies ev),
    (applyRules readings anomalies ev).confidence⟩

/-- Once exactly one row exists for the event, every further invocation
returns it and leaves the table unchanged, for any number of repeats. -/
theorem iterateGen_fixed (explain : EventRow → Decision → String)
    (readings : List Reading) (anomalies : List EventRow) (ev : EventRow)
    (s : List RecRow) (r : RecRow) (hr : rowsFor s ev.id = [r]) :
    ∀ m : ℕ, iterateGen explain readings anomalies ev m s = s := by
  intro m
  induction m with
  | zero => rfl
  | succ k ih =>
      simp only [iterateGen, generateRecommendation, hr]
      exact ih

/-- C10: the invocation of `generate_recommendation` that actually creates
the row (no row exists yet) returns `None` — the function falls off the
end after the creating `get_or_create` — while an invocation finding the
one existing row returns it; and a recommendation object is only ever
returned when it was already in the table before the call. -/
theorem C10_creating_call_returns_none (explain : EventRow → Decision → String)
    (readings : List Reading) (anomalies : List EventRow)
    (store : List RecRow) (ev : EventRow) :
    (rowsFor store ev.id = [] →
      generateRecommendation explain readings anomalies store ev =
        some (store ++ [newRecFor explain readings anomalies ev], none)) ∧
    (∀ r, rowsFor store ev.id = [r] →
      generateRecommendation explain readings anomalies store ev =
        some (store, some r)) ∧
    (∀ s' r, generateRecommendation explain readings anomalies store ev =
        some (s', some r) → rowsFor store ev.id = [r]) := by
  refine ⟨?_, ?_, ?_⟩
  · intro h
    simp [generateRecommendation, h, newRecFor]
  · intro r h
    simp [generateRecommendation, h]
  · intro s' r h
    rcases hr : rowsFor store ev.id with _ | ⟨a, t⟩
    · simp [generateRecommendation, hr] at h
    · cases t with
      | nil =>
          simp [generateRecommendation, hr] at h
          rw [h.2]
      | cons b t2 => simp [generateRecommendation, hr] at h

/-- Witness for C10: on an empty table the call creates the row and
returns `None`; on the table holding that row it returns the row. -/
theorem C10_creating_call_returns_none_witness :
    generateRecommendation (fun _ d => d.template) [] [] []
        ⟨9, 3, "HIGH_TEMPERATURE", "LOW", 9/10, 10000⟩ =
      some ([newRecFor (fun _ d => d.template) [] []
        ⟨9, 3, "HIGH_TEMPERATURE", "LOW", 9/10, 10000⟩], none) ∧
    generateRecommendation (fun _ d => d.template) [] []
        [newRecFor (fun _ d => d.template) [] []
          ⟨9, 3, "HIGH_TEMPERATURE", "LOW", 9/10, 10000⟩]
        ⟨9, 3, "HIGH_TEMPERATURE", "LOW", 9/10, 10000⟩ =
      some ([newRecFor (fun _ d => d.template) [] []
        ⟨9, 3, "HIGH_TEMPERATURE", "LOW", 9/10, 10000⟩],
        some (newRecFor (fun _ d => d.template) [] []
          ⟨9, 3, "HIGH_TEMPERATURE", "LOW", 9/10, 10000⟩)) := by
  constructor
  · exact (C10_creating_call_returns_none (fun _ d => d.template) [] [] []
      ⟨9, 3, "HIGH_TEMPERATURE", "LOW", 9/10, 10000⟩).1 (by simp [rowsFor])
  · exact ((C10_creating_call_returns_none (fun _ d => d.template) [] []
      [newRecFor (fun _ d => d.template) [] [] ⟨9, 3, "HIGH_TEMPERATURE", "LOW", 9/10, 10000⟩]
      ⟨9, 3, "HIGH_TEMPERATURE", "LOW", 9/10, 10000⟩).2).1 _
      (by simp [rowsFor, newRecFor])

/-- C3: `generate_recommendation` is idempotent per `AnomalyEvent`.
Starting from a table with no row for the event, any positive number of
invocations — from any mix of the direct service call and the post-save
signal path, which both enter this same function — leaves exactly one row
for the event (the one the first call created), and one further invocation
returns that persisted row unchanged. -/
theorem C3_recommendation_idempotent (explain : EventRow → Decision → String)
    (readings : List Reading) (anomalies : List EventRow) (ev : EventRow)
    (store0 : List RecRow) (h0 : rowsFor store0 ev.id = [])
    (n : ℕ) (hn : 1 ≤ n) :
    ∃ r0 : RecRow,
      iterateGen explain readings anomalies ev n store0 = store0 ++ [r0] ∧
      rowsFor (iterateGen explain readings anomalies ev n store0) ev.id = [r0] ∧
      generateRecommendation explain readings anomalies
          (iterateGen explain readings anomalies ev n store0) ev =
        some (iterateGen explain readings anomalies ev n store0, some r0) := by
  obtain ⟨m, rfl⟩ : ∃ m, n = m + 1 := ⟨n - 1, by omega⟩
  refine ⟨newRecFor explain readings anomalies ev, ?_⟩
  have hrows : rowsFor (store0 ++ [newRecFor explain readings anomalies ev]) ev.id =
      [newRecFor explain readings anomalies ev] := by
    have h0' := h0
    simp only [rowsFor] at h0' ⊢
    rw [List.filter_append, h0']
    simp [newRecFor]
  have hiter : iterateGen explain readings anomalies ev (m + 1) store0 =
      store0 ++ [newRecFor explain readings anomalies ev] := by
    simp only [iterateGen, generateRecommendation, h0]
    exact iterateGen_fixed explain readings anomalies ev _ _ hrows m
  refine ⟨hiter, ?_, ?_⟩
  · rw [hiter]; exact hrows
  · rw [hiter]
    exact (C10_creating_call_returns_none explain readings anomalies _ ev).2.1 _ hrows

/-- Witness for C3: three invocations on an empty table for a concrete
event leave exactly the single created row, and a further call returns it. -/
theorem C3_recommendation_idempotent_witness :
    ∃ r0 : RecRow,
      iterateGen (fun _ d => d.template) [] []
          ⟨9, 3, "HIGH_TEMPERATURE", "LOW", 9/10, 10000⟩ 3 [] = [] ++ [r0] ∧
      rowsFor (iterateGen (fun _ d => d.template) [] []
          ⟨9, 3, "HIGH_TEMPERATURE", "LOW", 9/10, 10000⟩ 3 []) 9 = [r0] ∧
      generateRecommendation (fun _ d => d.template) [] []
          (iterateGen (fun _ d => d.template) [] []
            ⟨9, 3, "HIGH_TEMPERATURE", "LOW", 9/10, 10000⟩ 3 [])
          ⟨9, 3, "HIGH_TEMPERATURE", "LOW", 9/10, 10000⟩ =
        some (iterateGen (fun _ d => d.template) [] []
          ⟨9, 3, "HIGH_TEMPERATURE", "LOW", 9/10, 10000⟩ 3 [], some r0) :=
  C3_recommendation_idempotent (fun _ d => d.template) [] []
    ⟨9, 3, "HIGH_TEMPERATURE", "LOW", 9/10, 10000⟩ [] (by simp [rowsFor]) 3
    (by norm_num)

/-! ## Claim about the feature engineering -/

/-- `np.diff` shortens a list by one. -/
theorem consecDiffs_length (l : List ℚ) : (consecDiffs l).length = l.length - 1 := by
  induction l with
  | nil => rfl
  | cons a t ih =>
      cases t with
      | nil => rfl
      | cons b t2 =>
          simp only [consecDiffs, List.length_cons] at ih ⊢
          omega

/-- The feature vector of `_engineer_features`, expressed over the context
the call itself produced. -/
theorem engineerFeatures_snd (std : List ℚ → ℚ) (window : ℕ) (value : ℚ)
    (context : List ℚ) :
    (engineerFeatures std window value context).2 =
      ⟨value,
        listMean (engineerFeatures std window value context).1,
        if 1 < (engineerFeatures std window value context).1.length then
          std (engineerFeatures std window value context).1 else 0,
        if 1 < (engineerFeatures std window value context).1.length then
          value - (engineerFeatures std window value context).1.getD
            ((engineerFeatures std window value context).1.length - 2) 0 else 0,
        if 1 < (engineerFeatures std window value context).1.length then
          (if 0 < (consecDiffs (engineerFeatures std window value context).1).length then
            listMean (consecDiffs (engineerFeatures std window value context).1) else 0)
          else 0⟩ := rfl

/-- One more observation extends the fold. -/
theorem runCtx_append (std : List ℚ → ℚ) (window : ℕ) (vs : List ℚ) (v : ℚ) :
    runCtx std window (vs ++ [v]) =
      (engineerFeatures std window v (runCtx std window vs)).1 := by
  simp [runCtx, List.foldl_append]

/-- For a positive window, the context a stream holds is exactly the
suffix of its observations of length `min (count) window`: the last
`window` observed values, or all of them while fewer exist. -/
theorem runCtx_eq_drop (std : List ℚ → ℚ) {window : ℕ} (hw : 1 ≤ window)
    (vs : List ℚ) :
    runCtx std window vs = vs.drop (vs.length - window) := by
  induction vs using List.reverseRecOn with
  | nil => simp [runCtx]
  | append_singleton vs v ih =>
      rw [runCtx_append, ih, engineerFeatures_fst std hw]
      rw [List.length_drop]
      by_cases h : window ≤ vs.length
      · have hlen : vs.length - (vs.length - window) = window := by omega
        rw [hlen, if_pos (by omega)]
        have hne : vs.drop (vs.length - window) ≠ [] := by
          intro hnil
          have := congrArg List.length hnil
          simp only [List.length_drop, List.length_nil] at this
          omega
        rw [List.tail_append_of_ne_nil hne, List.tail_drop]
        rw [List.length_append, List.length_singleton,
          List.drop_append_of_le_length (by omega)]
        rw [show vs.length + 1 - window = vs.length - window + 1 from by omega]
      · have hlen : vs.length - (vs.length - window) = vs.length := by omega
        rw [hlen, if_neg (by omega)]
        have h0 : vs.length - window = 0 := by omega
        have h1 : vs.length + 1 - window = 0 := by omega
        rw [List.length_append, List.length_singleton, h0, h1]
        simp

/-- C9: the feature vector returned for a new observation is computed
exactly from the last `window` observed values of that stream (all of
them while fewer exist, no look-ahead): the context becomes that suffix,
`value` is the new observation, `roll_mean` is the mean over that suffix,
`roll_std` is `std` of it (0 when fewer than 2 points), `diff` is the
value minus the previously observed value (0 when there is none), and
`derivative` is the mean of the consecutive differences inside the suffix
(0 when fewer than 2 points).  Stated for the deployed window sizes
(`window ≥ 2`; the shipped artifacts use 10, the loader default 5). -/
theorem C9_feature_vector (std : List ℚ → ℚ) {window : ℕ} (hw : 2 ≤ window)
    (vs : List ℚ) (v : ℚ) :
    (engineerFeatures std window v (runCtx std window vs)).1 =
        (vs ++ [v]).drop (vs.length + 1 - window) ∧
    (engineerFeatures std window v (runCtx std window vs)).2.value = v ∧
    (engineerFeatures std window v (runCtx std window vs)).2.rollMean =
        listMean ((vs ++ [v]).drop (vs.length + 1 - window)) ∧
    (engineerFeatures std window v (runCtx std window vs)).2.rollStd =
        (if 1 < ((vs ++ [v]).drop (vs.length + 1 - window)).length then
          std ((vs ++ [v]).drop (vs.length + 1 - window)) else 0) ∧
    (engineerFeatures std window v (runCtx std window vs)).2.diff =
        (if vs = [] then 0 else v - vs.getD (vs.length - 1) 0) ∧
    (engineerFeatures std window v (runCtx std window vs)).2.derivative =
        (if 1 < ((vs ++ [v]).drop (vs.length + 1 - window)).length then
          listMean (consecDiffs ((vs ++ [v]).drop (vs.length + 1 - window))) else 0) := by
  have hw1 : 1 ≤ window := by omega
  have hctx : (engineerFeatures std window v (runCtx std window vs)).1 =
      (vs ++ [v]).drop (vs.length + 1 - window) := by
    rw [← runCtx_append, runCtx_eq_drop std hw1]
    rw [List.length_append, List.length_singleton]
  have hlen : ((vs ++ [v]).drop (vs.length + 1 - window)).length =
      vs.length + 1 - (vs.length + 1 - window) := by
    rw [List.length_drop, List.length_append, List.length_singleton]
  refine ⟨hctx, ?_, ?_, ?_, ?_, ?_⟩
  · rw [engineerFeatures_snd]
  · rw [engineerFeatures_snd]
    simp only [hctx]
  · rw [engineerFeatures_snd]
    simp only [hctx]
  · rw [engineerFeatures_snd]
    simp only [hctx]
    cases vs with
    | nil =>
        have h0 : ([] : List ℚ).length + 1 - window = 0 := by
          simp only [List.length_nil]
          omega
        simp [h0]
    | cons a t =>
        have hn : (a :: t).length = t.length + 1 := rfl
        have hge : 1 < ((a :: t ++ [v]).drop ((a :: t).length + 1 - window)).length := by
          rw [List.length_drop, List.length_append, List.length_singleton, hn]
          omega
        rw [if_pos hge, if_neg (by simp)]
        congr 1
        rw [List.getD_eq_getElem?_getD, List.getD_eq_getElem?_getD,
          List.getElem?_drop]
        have hidx : (a :: t).length + 1 - window +
            (((a :: t ++ [v]).drop ((a :: t).length + 1 - window)).length - 2) =
            (a :: t).length - 1 := by
          rw [List.length_drop, List.length_append, List.length_singleton, hn]
          omega
        rw [hidx, List.getElem?_append, if_pos (by rw [hn]; omega)]
  · rw [engineerFeatures_snd]
    simp only [hctx]
    by_cases h1 : 1 < ((vs ++ [v]).drop (vs.length + 1 - window)).length
    · rw [if_pos h1, if_pos h1, if_pos (by rw [consecDiffs_length]; omega)]
    · rw [if_neg h1, if_neg h1]

/-- Witness for C9: window 5 and previous observations `[1, 2, 3]`; the
new observation 4 produces the context `[1, 2, 3, 4]` and the stated
feature formulas. -/
theorem C9_feature_vector_witness :
    (engineerFeatures (fun _ => 0) 5 4 (runCtx (fun _ => 0) 5 [1, 2, 3])).1 =
        (([1, 2, 3] : List ℚ) ++ [4]).drop (([1, 2, 3] : List ℚ).length + 1 - 5) ∧
    (engineerFeatures (fun _ => 0) 5 4 (runCtx (fun _ => 0) 5 [1, 2, 3])).2.value = 4 ∧
    (engineerFeatures (fun _ => 0) 5 4 (runCtx (fun _ => 0) 5 [1, 2, 3])).2.rollMean =
        listMean ((([1, 2, 3] : List ℚ) ++ [4]).drop (([1, 2, 3] : List ℚ).length + 1 - 5)) ∧
    (engineerFeatures (fun _ => 0) 5 4 (runCtx (fun _ => 0) 5 [1, 2, 3])).2.rollStd =
        (if 1 < ((([1, 2, 3] : List ℚ) ++ [4]).drop
            (([1, 2, 3] : List ℚ).length + 1 - 5)).length then
          (fun _ => (0 : ℚ)) ((([1, 2, 3] : List ℚ) ++ [4]).drop
            (([1, 2, 3] : List ℚ).length + 1 - 5)) else 0) ∧
    (engineerFeatures (fun _ => 0) 5 4 (runCtx (fun _ => 0) 5 [1, 2, 3])).2.diff =
        (if ([1, 2, 3] : List ℚ) = [] then 0
          else 4 - ([1, 2, 3] : List ℚ).getD (([1, 2, 3] : List ℚ).length - 1) 0) ∧
    (engineerFeatures (fun _ => 0) 5 4 (runCtx (fun _ => 0) 5 [1, 2, 3])).2.derivative =
        (if 1 < ((([1, 2, 3] : List ℚ) ++ [4]).drop
            (([1, 2, 3] : List ℚ).length + 1 - 5)).length then
          listMean (consecDiffs ((([1, 2, 3] : List ℚ) ++ [4]).drop
            (([1, 2, 3] : List ℚ).length + 1 - 5))) else 0) :=
  C9_feature_vector (fun _ => 0) (by norm_num) [1, 2, 3] 4

end Agri
